import Mathlib

/-!
Verification development for the CyberSentinel DLP decision core: the
content classifier (src/ml/inference/classifier.py), the condition-tree
policy evaluator with its stateful threshold tracker
(src/policy-engine/evaluator/policy_evaluator.py), and the server-side
policy engine loader (src/server/app/services/policy_engine.py).
The Python code is shallowly embedded: dict-shaped runtime values become
the inductive type `PyVal`, mutation of the evaluator object becomes
explicit state passing, exceptions become `Except Unit`, wall-clock time
becomes an explicit rational `now` parameter, and the two external
numeric/crypto primitives (`math.log2`, SHA-256) become function
parameters of the classifier record.
-/

set_option maxRecDepth 10000

namespace CyberSentinel

/-- Python runtime values as they occur in events and policies: `None`,
booleans, integers, strings, lists and string-keyed dicts (dicts are
association lists in insertion order, mirroring CPython dict order). -/
inductive PyVal where
  | none
  | bool (b : Bool)
  | int (n : Int)
  | str (s : String)
  | list (l : List PyVal)
  | dict (d : List (String × PyVal))
  deriving Repr

mutual

def decEqPyVal : (a b : PyVal) → Decidable (a = b)
  | .none, .none => isTrue rfl
  | .bool x, .bool y =>
    match decEq x y with
    | isTrue h => isTrue (by rw [h])
    | isFalse h => isFalse fun he => h (by cases he; rfl)
  | .int x, .int y =>
    match decEq x y with
    | isTrue h => isTrue (by rw [h])
    | isFalse h => isFalse fun he => h (by cases he; rfl)
  | .str x, .str y =>
    match decEq x y with
    | isTrue h => isTrue (by rw [h])
    | isFalse h => isFalse fun he => h (by cases he; rfl)
  | .list x, .list y =>
    match decEqPyValList x y with
    | isTrue h => isTrue (by rw [h])
    | isFalse h => isFalse fun he => h (by cases he; rfl)
  | .dict x, .dict y =>
    match decEqPyValDict x y with
    | isTrue h => isTrue (by rw [h])
    | isFalse h => isFalse fun he => h (by cases he; rfl)
  | .none, .bool _ => isFalse fun h => PyVal.noConfusion h
  | .none, .int _ => isFalse fun h => PyVal.noConfusion h
  | .none, .str _ => isFalse fun h => PyVal.noConfusion h
  | .none, .list _ => isFalse fun h => PyVal.noConfusion h
  | .none, .dict _ => isFalse fun h => PyVal.noConfusion h
  | .bool _, .none => isFalse fun h => PyVal.noConfusion h
  | .bool _, .int _ => isFalse fun h => PyVal.noConfusion h
  | .bool _, .str _ => isFalse fun h => PyVal.noConfusion h
  | .bool _, .list _ => isFalse fun h => PyVal.noConfusion h
  | .bool _, .dict _ => isFalse fun h => PyVal.noConfusion h
  | .int _, .none => isFalse fun h => PyVal.noConfusion h
  | .int _, .bool _ => isFalse fun h => PyVal.noConfusion h
  | .int _, .str _ => isFalse fun h => PyVal.noConfusion h
  | .int _, .list _ => isFalse fun h => PyVal.noConfusion h
  | .int _, .dict _ => isFalse fun h => PyVal.noConfusion h
  | .str _, .none => isFalse fun h => PyVal.noConfusion h
  | .str _, .bool _ => isFalse fun h => PyVal.noConfusion h
  | .str _, .int _ => isFalse fun h => PyVal.noConfusion h
  | .str _, .list _ => isFalse fun h => PyVal.noConfusion h
  | .str _, .dict _ => isFalse fun h => PyVal.noConfusion h
  | .list _, .none => isFalse fun h => PyVal.noConfusion h
  | .list _, .bool _ => isFalse fun h => PyVal.noConfusion h
  | .list _, .int _ => isFalse fun h => PyVal.noConfusion h
  | .list _, .str _ => isFalse fun h => PyVal.noConfusion h
  | .list _, .dict _ => isFalse fun h => PyVal.noConfusion h
  | .dict _, .none => isFalse fun h => PyVal.noConfusion h
  | .dict _, .bool _ => isFalse fun h => PyVal.noConfusion h
  | .dict _, .int _ => isFalse fun h => PyVal.noConfusion h
  | .dict _, .str _ => isFalse fun h => PyVal.noConfusion h
  | .dict _, .list _ => isFalse fun h => PyVal.noConfusion h

def decEqPyValList : (a b : List PyVal) → Decidable (a = b)
  | [], [] => isTrue rfl
  | a :: as, b :: bs =>
    match decEqPyVal a b, decEqPyValList as bs with
    | isTrue h1, isTrue h2 => isTrue (by rw [h1, h2])
    | isFalse h1, _ => isFalse fun he => h1 (by cases he; rfl)
    | _, isFalse h2 => isFalse fun he => h2 (by cases he; rfl)
  | [], _ :: _ => isFalse fun h => List.noConfusion h
  | _ :: _, [] => isFalse fun h => List.noConfusion h

def decEqPyValDict : (a b : List (String × PyVal)) → Decidable (a = b)
  | [], [] => isTrue rfl
  | (k, v) :: as, (k2, v2) :: bs =>
    match decEq k k2, decEqPyVal v v2, decEqPyValDict as bs with
    | isTrue h0, isTrue h1, isTrue h2 => isTrue (by rw [h0, h1, h2])
    | isFalse h0, _, _ => isFalse fun he => h0 (by cases he; rfl)
    | _, isFalse h1, _ => isFalse fun he => h1 (by cases he; rfl)
    | _, _, isFalse h2 => isFalse fun he => h2 (by cases he; rfl)
  | [], _ :: _ => isFalse fun h => List.noConfusion h
  | _ :: _, [] => isFalse fun h => List.noConfusion h

end

instance : DecidableEq PyVal := decEqPyVal

/-- Python truthiness (`if not x:`): `None`, `False`, `0`, the empty
string, the empty list and the empty dict are falsy. -/
def pyTruthy : PyVal → Bool
  | .none => false
  | .bool b => b
  | .int n => n != 0
  | .str s => s != ""
  | .list l => !l.isEmpty
  | .dict d => !d.isEmpty

/-- Numeric view: Python treats `bool` as an `int` subtype, so `True`
compares equal to `1` in `==`, `<` and friends. -/
def pyToNum : PyVal → Option Int
  | .bool b => some (if b then 1 else 0)
  | .int n => some n
  | _ => Option.none

mutual

/-- Python `==`. Total (never raises). Numbers compare numerically across
`bool`/`int`; lists compare pointwise. Dicts are compared pairwise in
insertion order (Python dict `==` is key-set based, but no claim in this
development compares two dicts for equality). -/
def pyEq : PyVal → PyVal → Bool
  | .none, .none => true
  | .str a, .str b => a == b
  | .list a, .list b => pyEqList a b
  | .dict a, .dict b => pyEqDict a b
  | a, b =>
    match pyToNum a, pyToNum b with
    | some x, some y => x == y
    | _, _ => false

def pyEqList : List PyVal → List PyVal → Bool
  | [], [] => true
  | a :: as, b :: bs => pyEq a b && pyEqList as bs
  | _, _ => false

def pyEqDict : List (String × PyVal) → List (String × PyVal) → Bool
  | [], [] => true
  | (k, v) :: as, (k2, v2) :: bs => k == k2 && pyEq v v2 && pyEqDict as bs
  | _, _ => false

end

mutual

/-- Python rich comparison (`<`, `<=`, `>`, `>=`): defined for
number-number (with `bool` as `0`/`1`) and string-string (code-point
lexicographic); list-list compares lexicographically element by element;
every other operand pairing raises `TypeError`, modelled as `.error`. -/
def pyCmp : PyVal → PyVal → Except Unit Ordering
  | .str a, .str b => .ok (compare a b)
  | .list a, .list b => pyCmpList a b
  | a, b =>
    match pyToNum a, pyToNum b with
    | some x, some y => .ok (compare x y)
    | _, _ => .error ()

def pyCmpList : List PyVal → List PyVal → Except Unit Ordering
  | [], [] => .ok .eq
  | [], _ :: _ => .ok .lt
  | _ :: _, [] => .ok .gt
  | a :: as, b :: bs => do
    match ← pyCmp a b with
    | .eq => pyCmpList as bs
    | o => .ok o

end

/-- Python `v in ev` for the `contains` operator when `ev` is a list or a
string (`policy_evaluator.py` guards with `isinstance(ev, (list, str))`).
For a string haystack a non-string needle raises `TypeError`. -/
def pyContains (ev v : PyVal) : Except Unit Bool :=
  match ev with
  | .list l => .ok (l.any (pyEq v))
  | .str s =>
    match v with
    | .str needle => .ok (decide (needle.data.IsInfix s.data))
    | _ => .error ()
  | _ => .error ()

/-! ## Policy evaluator (src/policy-engine/evaluator/policy_evaluator.py) -/

/-- Leaf condition dict as observed by `_evaluate_condition` after its
`.get` defaulting: `field = condition.get('field', '')`,
`operator = condition.get('operator', '==')`, `value =
condition.get('value')` (a missing value key and an explicit `None` are
both `None`, hence one `PyVal` field using `.none`). -/
structure Cond where
  field : String
  operator : String
  value : PyVal
  deriving DecidableEq, Repr

/-- Conditions dict as dispatched by `_evaluate_conditions`: the code
checks for an `all` key first, then `any`, then `not`, and otherwise
treats the whole dict as a single leaf condition. A dict holding several
of these keys behaves as the first one checked, so the dispatched shape
is a tagged variant. Children of `all`/`any` are leaf conditions (the
code passes them straight to `_evaluate_condition`); only `not` recurses
into `_evaluate_conditions`. -/
inductive Conditions where
  | all (children : List Cond)
  | any (children : List Cond)
  | not (child : Conditions)
  | leaf (c : Cond)
  deriving DecidableEq, Repr

/-- Stateful clause as observed by `_evaluate_stateful` after `.get`
defaulting: `window = stateful.get('window', '5m')` (the `Option` keeps
the missing-key case explicit), `count = threshold.get('count', 1)`,
`distinct_field = threshold.get('distinct_field')`. -/
structure StatefulSpec where
  window : Option String
  count : Int
  distinct_field : Option String
  deriving DecidableEq, Repr

/-- Policy dict as observed by `PolicyEvaluator` through its `.get`
calls: `id`, `name` may be missing (`.get` returns `None`);
`enabled = policy.get('enabled', True)`; `priority` defaults to 100 at
each use site (kept as `Option` so the default stays at the use sites,
as in the code); `conditions = policy.get('conditions', {})` where the
empty dict is the leaf `⟨"", "==", .none⟩` (that is what the leaf
fallback of `_evaluate_conditions` reads off an empty dict);
`'stateful' in policy` becomes `stateful.isSome`;
`actions = policy.get('actions', [])` and likewise `compliance_tags`. -/
structure Policy where
  id : Option String
  name : Option String
  enabled : Bool
  priority : Option Int
  conditions : Conditions
  stateful : Option StatefulSpec
  actions : List PyVal
  compliance_tags : List PyVal
  deriving DecidableEq, Repr

/-- The `_get_nested_value` dot-path walk: split the path on `.`; at each
key, a non-dict current value returns `None`, a dict is read with
`.get(key)` (missing key gives `None`), and a `None` intermediate result
returns `None` immediately. Note that a stored explicit `None` and a
missing key are indistinguishable in the result. -/
def getNestedGo : List String → PyVal → PyVal
  | [], v => v
  | k :: rest, v =>
    match v with
    | .dict d =>
      match d.lookup k with
      | some v2 => if v2 = PyVal.none then PyVal.none else getNestedGo rest v2
      | Option.none => PyVal.none
    | _ => PyVal.none

/-- Python `path.split('.')`: split on every dot, empty pieces kept
(structural implementation, equivalent to `String.splitOn "."`). -/
def splitDot : List Char → List (List Char)
  | [] => [[]]
  | c :: rest =>
    match splitDot rest with
    | [] => [[]]
    | h :: t => if c = '.' then [] :: h :: t else (c :: h) :: t

def pySplitDot (s : String) : List String :=
  (splitDot s.data).map (fun l => String.mk l)

def getNestedValue (data : PyVal) (path : String) : PyVal :=
  getNestedGo (pySplitDot path) data

/-- Operator dispatch table keys of `_evaluate_condition`. -/
def knownOperators : List String :=
  ["==", "!=", ">", ">=", "<", "<=", "contains", "not contains",
   "in", "not in", "regex", "exists"]

/-- The body of one operator lambda from `_evaluate_condition`, with
Python exceptions as `.error`. `reSearch` models
`bool(re.search(v, str(ev)))` — the external `re` library call (which
raises on a non-string or invalid pattern). -/
def applyOperator (reSearch : PyVal → PyVal → Except Unit Bool)
    (op : String) (ev v : PyVal) : Except Unit Bool :=
  if op = "==" then .ok (pyEq ev v)
  else if op = "!=" then .ok (!pyEq ev v)
  else if op = ">" then do .ok ((← pyCmp ev v) == .gt)
  else if op = ">=" then do .ok ((← pyCmp ev v) != .lt)
  else if op = "<" then do .ok ((← pyCmp ev v) == .lt)
  else if op = "<=" then do .ok ((← pyCmp ev v) != .gt)
  else if op = "contains" then pyContains ev v
  else if op = "not contains" then
    match ev with
    | .list _ => do .ok (!(← pyContains ev v))
    | .str _ => do .ok (!(← pyContains ev v))
    | _ => .ok true
  else if op = "in" then
    match v with
    | .list l => .ok (l.any (pyEq ev))
    | _ => .ok false
  else if op = "not in" then
    match v with
    | .list l => .ok (!l.any (pyEq ev))
    | _ => .ok true
  else if op = "regex" then reSearch v ev
  else if op = "exists" then .ok (ev != PyVal.none)
  else .error ()

/-- `_evaluate_condition`: resolve the field, look the operator up in the
dispatch dict (unknown operator → warning and `False`, before any
evaluation), then run the lambda inside `try/except` where any exception
yields `False`. -/
def evaluateCondition (reSearch : PyVal → PyVal → Except Unit Bool)
    (event : PyVal) (cond : Cond) : Bool :=
  let ev := getNestedValue event cond.field
  if cond.operator ∈ knownOperators then
    match applyOperator reSearch cond.operator ev cond.value with
    | .ok b => b
    | .error _ => false
  else
    false

/-- `_evaluate_conditions`: `all` is Python `all(...)` over the children
(vacuously `True` on an empty list), `any` is `any(...)` (vacuously
`False`), `not` negates a recursive call, and the fallback is a single
leaf condition. -/
def evaluateConditions (reSearch : PyVal → PyVal → Except Unit Bool)
    (event : PyVal) : Conditions → Bool
  | .all children => children.all (evaluateCondition reSearch event)
  | .any children => children.any (evaluateCondition reSearch event)
  | .not child => !evaluateConditions reSearch event child
  | .leaf c => evaluateCondition reSearch event c

/-- `_parse_duration`: `re.match(r'(\d+)([smhd])', duration)` — a
leading digit run followed by a unit letter; anything else falls back to
300 seconds. -/
def parseDuration (duration : String) : Int :=
  let ds := duration.data.takeWhile Char.isDigit
  let value : Int := ds.foldl (fun a c => a * 10 + (c.toNat - 48 : Int)) 0
  if ds.isEmpty then 300
  else
    match duration.data.drop ds.length with
    | u :: _ =>
      if u = 's' then value * 1
      else if u = 'm' then value * 60
      else if u = 'h' then value * 3600
      else if u = 'd' then value * 86400
      else 300
    | [] => 300

/-- One `(timestamp, event)` entry of a per-policy window list.
Timestamps are integers standing for `datetime.utcnow()` instants in
whole seconds (no claim depends on sub-second granularity). -/
structure Entry where
  timestamp : ℤ
  event : PyVal
  deriving DecidableEq, Repr

/-- The `state_tracker` dict: policy id (which is `policy.get('id')`,
hence possibly `None`) to window list, in insertion order. -/
abbrev Tracker := List (Option String × List Entry)

/-- Dict read with default: `self.state_tracker[policy_id]` after the
`if policy_id not in self.state_tracker: ... = []` guard. -/
def trackerGet (t : Tracker) (k : Option String) : List Entry :=
  (t.lookup k).getD []

/-- Dict write `self.state_tracker[policy_id] = l`: replaces the value
in place if the key exists, else appends the key (CPython dict update
keeps insertion order). -/
def trackerSet (t : Tracker) (k : Option String) (l : List Entry) : Tracker :=
  match t, k, l with
  | [], k, l => [(k, l)]
  | (k2, l2) :: rest, k, l =>
    if k2 = k then (k, l) :: rest else (k2, l2) :: trackerSet rest k l

/-- Python `set(...)` cardinality over resolved distinct-field values:
first occurrences under Python `==`. (Unhashable resolved values, which
would raise in `set()`, do not occur in this development.) -/
def distinctCount (vs : List PyVal) : Nat :=
  (vs.foldl (fun acc v => if acc.any (pyEq v) then acc else acc ++ [v]) []).length

/-- `_evaluate_stateful`: read the clause with its defaults, ensure the
tracker key, append `(now, event)`, prune with
`item['timestamp'] > cutoff_time` (so an entry at exactly
`now - window` is dropped), count either all remaining entries or the
distinct resolved `distinct_field` values, and compare with the
threshold. The two `datetime.utcnow()` calls are modelled as one `now`.
Returns the decision and the updated tracker. -/
def evaluateStateful (now : ℤ) (event : PyVal) (policy : Policy)
    (tracker : Tracker) : Bool × Tracker :=
  let stateful := policy.stateful.getD ⟨Option.none, 1, Option.none⟩
  let windowSeconds : Int := parseDuration (stateful.window.getD "5m")
  let countThreshold : Int := stateful.count
  let pid := policy.id
  let appended := trackerGet tracker pid ++ [⟨now, event⟩]
  let cutoff : ℤ := now - windowSeconds
  let eventsInWindow := appended.filter (fun item => cutoff < item.timestamp)
  let count : Nat :=
    match stateful.distinct_field with
    | some df => distinctCount (eventsInWindow.map (fun item => getNestedValue item.event df))
    | Option.none => eventsInWindow.length
  (decide (countThreshold ≤ (count : Int)), trackerSet tracker pid eventsInWindow)

/-- One reported match: the dict built in `evaluate_event`. -/
structure MatchInfo where
  policy_id : Option String
  policy_name : Option String
  priority : Int
  actions : List PyVal
  compliance_tags : List PyVal
  deriving DecidableEq, Repr

/-- The `PolicyEvaluator` object state: the loaded policy list and the
stateful-rule tracker. -/
structure Evaluator where
  policies : List Policy
  state_tracker : Tracker

/-- `evaluate_event`: walk the policies in list order; skip disabled
ones; on a static-conditions match consult the stateful clause when
present (which mutates the tracker) and drop the policy if it says no;
otherwise append the match info. Returns the matches in evaluation
order together with the updated evaluator state. -/
def evaluateEvent (reSearch : PyVal → PyVal → Except Unit Bool) (now : ℤ)
    (ev : Evaluator) (event : PyVal) : List MatchInfo × Evaluator :=
  let step := fun (acc : List MatchInfo × Tracker) (policy : Policy) =>
    if !policy.enabled then acc
    else if evaluateConditions reSearch event policy.conditions then
      if policy.stateful.isSome then
        let res := evaluateStateful now event policy acc.2
        if res.1 then (acc.1 ++ [matchInfoOf policy], res.2)
        else (acc.1, res.2)
      else (acc.1 ++ [matchInfoOf policy], acc.2)
    else acc
  let res := ev.policies.foldl step ([], ev.state_tracker)
  (res.1, { policies := ev.policies, state_tracker := res.2 })
where
  matchInfoOf (policy : Policy) : MatchInfo :=
    ⟨policy.id, policy.name, policy.priority.getD 100,
     policy.actions, policy.compliance_tags⟩

/-- The sort of `load_policy`:
`self.policies.sort(key=lambda p: p.get('priority', 100), reverse=True)`
— a stable sort, descending on the defaulted priority. Stable sorts on
a total preorder agree, so insertion sort stands in for Timsort. -/
def sortPoliciesDesc (ps : List Policy) : List Policy :=
  ps.insertionSort (fun a b => b.priority.getD 100 ≤ a.priority.getD 100)

/-- `load_policy` with a YAML string that parses into a policy dict:
append, then re-sort the whole list descending by priority. -/
def loadPolicy (ev : Evaluator) (p : Policy) : Evaluator :=
  { ev with policies := sortPoliciesDesc (ev.policies ++ [p]) }

/-- `load_policy` including its failure path: `yaml.safe_load` errors are
logged and re-raised (`raise` in the `except` block), so a parse failure
propagates to the caller instead of being swallowed. -/
def loadPolicyResult (ev : Evaluator) (parsed : Except Unit Policy) :
    Except Unit Evaluator :=
  match parsed with
  | .ok p => .ok (loadPolicy ev p)
  | .error e => .error e

/-! ## Server policy engine (src/server/app/services/policy_engine.py) -/

/-- Python `x in container` as used by `_validate_policy`: key membership
for dicts, `==`-membership for lists, substring for string containers
(needle must be a string there), `TypeError` otherwise. -/
def pyIn (needle container : PyVal) : Except Unit Bool :=
  match container with
  | .dict d =>
    match needle with
    | .str k => .ok (d.any (fun kv => kv.1 == k))
    | _ => .ok false
  | .list l => .ok (l.any (pyEq needle))
  | .str s =>
    match needle with
    | .str n => .ok (decide (n.data.IsInfix s.data))
    | _ => .error ()
  | _ => .error ()

/-- Rule loop of `_validate_policy`: each rule must contain `id`,
`conditions` and `actions`. The failure log lines for the latter two
interpolate `rule.get('id')`, which raises on a non-dict rule, hence the
`.error` arms. -/
def validateRules : List PyVal → Except Unit Bool
  | [] => .ok true
  | r :: rest => do
    let hasId ← pyIn (.str "id") r
    if !hasId then return false
    let hasConditions ← pyIn (.str "conditions") r
    if !hasConditions then
      match r with
      | .dict _ => return false
      | _ => .error ()
    let hasActions ← pyIn (.str "actions") r
    if !hasActions then
      match r with
      | .dict _ => return false
      | _ => .error ()
    validateRules rest

/-- `_validate_policy`: requires a `policy` key whose value contains
`id`, `name` and `rules`, where `rules` is a non-empty list whose
entries each contain `id`, `conditions` and `actions`. Notably, nothing
about condition operators or regex patterns is checked here. Raising
paths (`policy_data["policy"]` on a non-dict container, membership tests
on unsupported types, `.get` on a non-dict `policy`) surface as
`.error`, which `load_policies` catches per file. -/
def serverValidatePolicy (pd : PyVal) : Except Unit Bool := do
  let hasPolicy ← pyIn (.str "policy") pd
  if !hasPolicy then return false
  match pd with
  | .dict d =>
    let policy := ((d.lookup "policy").getD PyVal.none)
    let hasId ← pyIn (.str "id") policy
    if !hasId then return false
    let hasName ← pyIn (.str "name") policy
    if !hasName then return false
    let hasRules ← pyIn (.str "rules") policy
    if !hasRules then return false
    match policy with
    | .dict p =>
      match (p.lookup "rules").getD (.list []) with
      | .list rl => if rl.isEmpty then return false else validateRules rl
      | _ => return false
    | _ => .error ()
  | _ => .error ()

/-- Sort key of `load_policies`:
`p.get("policy", {}).get("priority", 100)`. Priorities are modelled as
integers (a non-numeric priority would make Python's sort raise, which
no claim here exercises). -/
def serverPriorityKey (pd : PyVal) : Int :=
  match pd with
  | .dict d =>
    match d.lookup "policy" with
    | some (.dict p) =>
      match p.lookup "priority" with
      | some (.int n) => n
      | some (.bool b) => if b then 1 else 0
      | _ => 100
    | _ => 100
  | _ => 100

/-- `load_policies` over the parse outcome of each policy file (an
`.error` models a raising `open`/`yaml.safe_load`): per-file exceptions
and validation failures are logged and skipped, valid policies are
appended (pattern pre-compilation never changes the list, whatever the
regex patterns), and the final list is sorted by the priority key —
ascending, as `list.sort` without `reverse=True`. The engine starts with
an empty policy list. -/
def serverLoadPolicies (files : List (Except Unit PyVal)) : List PyVal :=
  let loaded := files.foldl (fun acc f =>
    match f with
    | .error _ => acc
    | .ok pd =>
      if !pyTruthy pd then acc
      else
        match serverValidatePolicy pd with
        | .ok true => acc ++ [pd]
        | .ok false => acc
        | .error _ => acc) []
  loaded.insertionSort (fun a b => serverPriorityKey a ≤ serverPriorityKey b)

/-- The server `_get_nested_field` walk (no early `None` cut, but
observationally the same as the evaluator version): `.get` through
dicts, `None` once a non-dict is hit mid-path. -/
def serverGetNestedGo : List String → PyVal → PyVal
  | [], v => v
  | k :: rest, v =>
    match v with
    | .dict d => serverGetNestedGo rest ((d.lookup k).getD PyVal.none)
    | _ => PyVal.none

def serverGetNestedField (event : PyVal) (fieldPath : String) : PyVal :=
  serverGetNestedGo (pySplitDot fieldPath) event

/-- Python `float(x)` as used by the numeric comparison operators:
numbers convert, strings parse as optionally signed decimal literals
(ignoring surrounding whitespace; exponent and inf/nan forms are not
exercised here), everything else raises. -/
def digitsVal (l : List Char) : ℚ :=
  l.foldl (fun a c => a * 10 + ((c.toNat - 48 : ℕ) : ℚ)) 0

def parseUnsignedFloat (l : List Char) : Option ℚ :=
  let ip := l.takeWhile Char.isDigit
  match l.drop ip.length with
  | [] => if ip.isEmpty then Option.none else some (digitsVal ip)
  | frac :: fp =>
    if frac = '.' && fp.all Char.isDigit && !(ip.isEmpty && fp.isEmpty) then
      some (digitsVal ip + digitsVal fp / (10 : ℚ) ^ fp.length)
    else Option.none

def pyFloat : PyVal → Except Unit ℚ
  | .int n => .ok (n : ℚ)
  | .bool b => .ok (if b then 1 else 0)
  | .str s =>
    let t := s.trim.data
    let body := match t with
      | '+' :: r => r
      | '-' :: r => r
      | r => r
    let sign : ℚ := match t with
      | '-' :: _ => -1
      | _ => 1
    match parseUnsignedFloat body with
    | some q => .ok (sign * q)
    | Option.none => .error ()
  | _ => .error ()

/-- Helper for the server `_luhn_check`: digits at positions 0, 2, 4, …
of a list (the Python slices `[-1::-2]` and `[-2::-2]` over the reversed
digit list). -/
def everyOther : List Nat → List Nat
  | [] => []
  | [a] => [a]
  | a :: _ :: rest => a :: everyOther rest

/-- Server `_luhn_check`: strip spaces and dashes, require a non-empty
all-digit string, then the classic checksum — odd positions (from the
right) summed as-is, even positions doubled with digit-sum. -/
def serverLuhnCheck (cardNumber : String) : Bool :=
  let cleaned := cardNumber.data.filter (fun c => c != ' ' && c != '-')
  if cleaned.isEmpty || !cleaned.all Char.isDigit then false
  else
    let digits := cleaned.map (fun c => c.toNat - 48)
    let rev := digits.reverse
    let odd := everyOther rev
    let even := everyOther (rev.drop 1)
    let checksum := odd.sum + (even.map (fun d => d * 2 / 10 + d * 2 % 10)).sum
    checksum % 10 == 0

/-- Leaf condition dict as read by the server `_evaluate_condition`
through `.get`: all three slots may be any value or missing (`None`). -/
structure SCond where
  field : PyVal
  operator : PyVal
  value : PyVal
  deriving DecidableEq, Repr

/-- Server `_evaluate_condition`. A falsy field or operator short-cuts
to `False`; a truthy non-string field raises (`field.split`), modelled
as `.error`; a truthy non-string operator matches none of the string
comparisons and lands in the unknown-operator arm (`False`). The
`regex` arm is delegated to the abstract `compileSearch` standing for
the `re` library (pattern cache plus `re.compile`/`search`, with
`re.error` already mapped to `False` by the code). -/
def serverEvaluateCondition (compileSearch : PyVal → String → Except Unit Bool)
    (event : PyVal) (c : SCond) : Except Unit Bool :=
  if !pyTruthy c.field || !pyTruthy c.operator then .ok false
  else
    match c.field with
    | .str fieldStr =>
      let ev := serverGetNestedField event fieldStr
      match c.operator with
      | .str op =>
        if op = "equals" then .ok (pyEq ev c.value)
        else if op = "not_equals" then .ok (!pyEq ev c.value)
        else if op = "contains" then
          match ev, c.value with
          | .str s, .str n => .ok (decide (n.data.IsInfix s.data))
          | .list l, _ => .ok (l.any (pyEq c.value))
          | _, _ => .ok false
        else if op = "regex" then
          match ev with
          | .str s => compileSearch c.value s
          | _ => .ok false
        else if op = "greater_than" then
          match pyFloat ev, pyFloat c.value with
          | .ok a, .ok b => .ok (decide (b < a))
          | _, _ => .ok false
        else if op = "less_than" then
          match pyFloat ev, pyFloat c.value with
          | .ok a, .ok b => .ok (decide (a < b))
          | _, _ => .ok false
        else if op = "greater_equal" then
          match pyFloat ev, pyFloat c.value with
          | .ok a, .ok b => .ok (decide (b ≤ a))
          | _, _ => .ok false
        else if op = "less_equal" then
          match pyFloat ev, pyFloat c.value with
          | .ok a, .ok b => .ok (decide (a ≤ b))
          | _, _ => .ok false
        else if op = "in" then
          match c.value with
          | .list l => .ok (l.any (pyEq ev))
          | _ => .ok false
        else if op = "exists" then .ok (ev != PyVal.none)
        else if op = "not_exists" then .ok (ev == PyVal.none)
        else if op = "luhn_check" then
          match ev with
          | .str s => .ok (serverLuhnCheck s)
          | _ => .ok false
        else .ok false
      | _ => .ok false
    | _ => .error ()

/-- Operator strings dispatched by the server `_evaluate_condition`;
anything else lands in the logged unknown-operator arm. -/
def serverKnownOperators : List String :=
  ["equals", "not_equals", "contains", "regex", "greater_than", "less_than",
   "greater_equal", "less_equal", "in", "exists", "not_exists", "luhn_check"]

/-! ## Classifier (src/ml/inference/classifier.py)

The `re` patterns of `_load_regex_patterns` are transcribed into a small
backtracking regex engine with Python `re` semantics (leftmost match,
left-biased alternation, greedy quantifiers, `\b` word boundaries). All
quantified subexpressions in these patterns are single character
classes, so quantifiers are represented as bounded repetition of a
class. `findall` returns full matches; the two patterns with a capturing
group (generic API key and secret/password) would return the group in
Python, but only match counts and PAN match strings are ever observed,
and the PAN patterns have no capturing groups. -/

/-- Regex abstract syntax: empty, single-character class, word boundary,
concatenation, alternation (left arm preferred) and greedy bounded
repetition of a character class (`hi = none` means unbounded). -/
inductive Re where
  | eps
  | chr (p : Char → Bool)
  | wb
  | seqR (a b : Re)
  | alt (a b : Re)
  | rep (p : Char → Bool) (lo : Nat) (hi : Option Nat)

/-- Python `\w` over the ASCII inputs exercised here. -/
def isWordChar (c : Char) : Bool := c.isAlphanum || c == '_'

def countLeading (p : Char → Bool) : List Char → Nat
  | [] => 0
  | c :: rest => if p c then countLeading p rest + 1 else 0

/-- States reachable by a greedy class repetition, longest first: the
consumed prefix length ranges from `min hi avail` down to `lo`. Each
state is the new previous-character context plus the remaining input. -/
def repStates (p : Char → Bool) (lo : Nat) (hi : Option Nat)
    (prev : Option Char) (s : List Char) : List (Option Char × List Char) :=
  let avail := countLeading p s
  let top := match hi with
    | some m => min m avail
    | Option.none => avail
  if lo ≤ top then
    (List.range (top + 1 - lo)).map (fun i =>
      let k := top - i
      (match (s.take k).getLast? with
       | some c => some c
       | Option.none => prev, s.drop k))
  else []

/-- All ways a regex can match a prefix of `s` (with `prev` the
character just before `s`), in backtracking preference order. -/
def reMatch : Re → Option Char → List Char → List (Option Char × List Char)
  | .eps, prev, s => [(prev, s)]
  | .chr _, _, [] => []
  | .chr p, _, c :: rest => if p c then [(some c, rest)] else []
  | .wb, prev, s =>
    let lw := match prev with
      | some c => isWordChar c
      | Option.none => false
    let rw := match s with
      | c :: _ => isWordChar c
      | [] => false
    if lw != rw then [(prev, s)] else []
  | .seqR a b, prev, s => (reMatch a prev s).flatMap (fun st => reMatch b st.1 st.2)
  | .alt a b, prev, s => reMatch a prev s ++ reMatch b prev s
  | .rep p lo hi, prev, s => repStates p lo hi prev s

/-- Length of the preferred (Python) match of `r` at the current
position, if any. -/
def matchEnd (r : Re) (prev : Option Char) (s : List Char) : Option Nat :=
  match reMatch r prev s with
  | [] => Option.none
  | st :: _ => some (s.length - st.2.length)

/-- The scanning loop of `re.findall`: try the pattern at each position,
emit the leftmost match and resume right after it (advancing one
character after an empty match, as the `re` scanner does). Fuel is the
input length plus one, which the scan cannot exhaust. -/
def findAllGo (r : Re) : Nat → Option Char → List Char → List (List Char)
  | 0, _, _ => []
  | fuel + 1, prev, s =>
    match matchEnd r prev s with
    | some n =>
      if n = 0 then
        match s with
        | [] => [[]]
        | c :: rest => [] :: findAllGo r fuel (some c) rest
      else
        (s.take n) :: findAllGo r fuel
          (match (s.take n).getLast? with
           | some c => some c
           | Option.none => prev)
          (s.drop n)
    | Option.none =>
      match s with
      | [] => []
      | c :: rest => findAllGo r fuel (some c) rest

def findall (r : Re) (s : String) : List String :=
  (findAllGo r (s.data.length + 1) Option.none s.data).map fun l => String.mk l

/-- Single literal character. -/
def rchar (c : Char) : Re := .chr (fun x => x == c)

/-- Literal string. -/
def rstr (s : String) : Re := s.data.foldr (fun c acc => .seqR (rchar c) acc) .eps

/-- Case-insensitive literal string (`re.I`). -/
def istr (s : String) : Re :=
  s.data.foldr (fun c acc => .seqR (.chr (fun x => x.toLower == c.toLower)) acc) .eps

/-- Concatenation of a pattern list. -/
def rseq (l : List Re) : Re := l.foldr .seqR .eps

/-- Greedy optional group (`(?:...)?` / `x?`). -/
def ropt (r : Re) : Re := .alt r .eps

def digitP (c : Char) : Bool := c.isDigit
def dashDotP (c : Char) : Bool := c == '-' || c == '.'
def quoteP (c : Char) : Bool := c == '"' || c.toNat == 39
def wsP (c : Char) : Bool :=
  c == ' ' || c == '\t' || c == '\n' || c == '\r' || c.toNat == 11 || c.toNat == 12
def keyCharP (c : Char) : Bool := c.isAlphanum || c == '_' || c == '-'
def pwCharP (c : Char) : Bool :=
  c.isAlphanum || c == '_' || c == '-' || c == '!' || c == '@' || c == '#' ||
  c == '$' || c == '%' || c == '^' || c == '&' || c == '*'
def emailLocalP (c : Char) : Bool :=
  c.isAlphanum || c == '.' || c == '_' || c == '%' || c == '+' || c == '-'
def emailDomainP (c : Char) : Bool := c.isAlphanum || c == '.' || c == '-'
def emailTldP (c : Char) : Bool := c.isUpper || c == '|' || c.isLower
def upperDigitP (c : Char) : Bool := c.isUpper || c.isDigit

/-- Visa: `\b4[0-9]{12}(?:[0-9]{3})?\b`. -/
def reVisa : Re :=
  rseq [.wb, rchar '4', .rep digitP 12 (some 12), ropt (.rep digitP 3 (some 3)), .wb]

/-- Mastercard: `\b5[1-5][0-9]{14}\b`. -/
def reMastercard : Re :=
  rseq [.wb, rchar '5', .chr (fun c => '1' ≤ c && c ≤ '5'), .rep digitP 14 (some 14), .wb]

/-- Amex: `\b3[47][0-9]{13}\b`. -/
def reAmex : Re :=
  rseq [.wb, rchar '3', .chr (fun c => c == '4' || c == '7'), .rep digitP 13 (some 13), .wb]

/-- Discover: `\b6(?:011|5[0-9]{2})[0-9]{12}\b`. -/
def reDiscover : Re :=
  rseq [.wb, rchar '6', .alt (rstr "011") (rseq [rchar '5', .rep digitP 2 (some 2)]),
        .rep digitP 12 (some 12), .wb]

/-- SSN dashed: `\b\d{3}-\d{2}-\d{4}\b`. -/
def reSSNDashed : Re :=
  rseq [.wb, .rep digitP 3 (some 3), rchar '-', .rep digitP 2 (some 2), rchar '-',
        .rep digitP 4 (some 4), .wb]

/-- SSN plain: `\b\d{9}\b`. -/
def reSSNPlain : Re := rseq [.wb, .rep digitP 9 (some 9), .wb]

/-- Email: `\b[A-Za-z0-9._%+-]+@[A-Za-z0-9.-]+\.[A-Z|a-z]{2,}\b` (the `|`
inside the TLD class is a literal, kept as in the source). -/
def reEmail : Re :=
  rseq [.wb, .rep emailLocalP 1 Option.none, rchar '@', .rep emailDomainP 1 Option.none,
        rchar '.', .rep emailTldP 2 Option.none, .wb]

/-- US phone: `\b\d{3}[-.]?\d{3}[-.]?\d{4}\b`. -/
def rePhoneUS : Re :=
  rseq [.wb, .rep digitP 3 (some 3), .rep dashDotP 0 (some 1), .rep digitP 3 (some 3),
        .rep dashDotP 0 (some 1), .rep digitP 4 (some 4), .wb]

/-- International phone: `\+\d{1,3}[-.]?\d{1,14}\b`. -/
def rePhoneIntl : Re :=
  rseq [rchar '+', .rep digitP 1 (some 3), .rep dashDotP 0 (some 1),
        .rep digitP 1 (some 14), .wb]

/-- AWS key: `AKIA[0-9A-Z]{16}`. -/
def reAWS : Re := rseq [rstr "AKIA", .rep upperDigitP 16 (some 16)]

/-- Generic API key (`re.I`):
`api[_-]?key["\']?\s*[:=]\s*["\']?([a-zA-Z0-9_\-]{32,})["\']?`. -/
def reApiKey : Re :=
  rseq [istr "api", .rep (fun c => c == '_' || c == '-') 0 (some 1), istr "key",
        .rep quoteP 0 (some 1), .rep wsP 0 Option.none,
        .chr (fun c => c == ':' || c == '='), .rep wsP 0 Option.none,
        .rep quoteP 0 (some 1), .rep keyCharP 32 Option.none, .rep quoteP 0 (some 1)]

/-- Secret (`re.I`):
`secret["\']?\s*[:=]\s*["\']?([a-zA-Z0-9_\-]{16,})["\']?`. -/
def reSecret : Re :=
  rseq [istr "secret", .rep quoteP 0 (some 1), .rep wsP 0 Option.none,
        .chr (fun c => c == ':' || c == '='), .rep wsP 0 Option.none,
        .rep quoteP 0 (some 1), .rep keyCharP 16 Option.none, .rep quoteP 0 (some 1)]

/-- Password (`re.I`):
`password["\']?\s*[:=]\s*["\']?([a-zA-Z0-9_\-!@#$%^&*]{8,})["\']?`. -/
def rePassword : Re :=
  rseq [istr "password", .rep quoteP 0 (some 1), .rep wsP 0 Option.none,
        .chr (fun c => c == ':' || c == '='), .rep wsP 0 Option.none,
        .rep quoteP 0 (some 1), .rep pwCharP 8 Option.none, .rep quoteP 0 (some 1)]

/-- IP: `\b(?:\d{1,3}\.){3}\d{1,3}\b` (the `{3}` group repetition is
unrolled). -/
def reOctetDot : Re := rseq [.rep digitP 1 (some 3), rchar '.']
def reIP : Re :=
  rseq [.wb, reOctetDot, reOctetDot, reOctetDot, .rep digitP 1 (some 3), .wb]

/-- The four PAN patterns, in source order. -/
def panPatterns : List Re := [reVisa, reMastercard, reAmex, reDiscover]

/-- The `_load_regex_patterns` dict, in insertion order. -/
def regexPatterns : List (String × List Re) :=
  [("PAN", panPatterns),
   ("SSN", [reSSNDashed, reSSNPlain]),
   ("EMAIL", [reEmail]),
   ("PHONE", [rePhoneUS, rePhoneIntl]),
   ("API_KEY", [reAWS, reApiKey]),
   ("SECRET", [reSecret, rePassword]),
   ("IP_ADDRESS", [reIP])]

/-- `_validate_luhn`: keep the digit characters, then from the right
double every second digit (subtracting 9 above 9) and sum; valid iff
the total is divisible by 10. -/
def validateLuhn (cardNumber : String) : Bool :=
  let digits := (cardNumber.data.filter Char.isDigit).map (fun c => c.toNat - 48)
  let checksum := (digits.reverse.enum.map (fun p =>
    if p.1 % 2 == 1 then
      (if p.2 * 2 > 9 then p.2 * 2 - 9 else p.2 * 2)
    else p.2)).sum
  checksum % 10 == 0

/-- The guard `m.replace('-', '').isdigit()` of the PAN validation:
dash-stripped match is non-empty and all digits. -/
def isDigitsNoDash (m : String) : Bool :=
  let cleaned := m.data.filter (fun c => c != '-')
  !cleaned.isEmpty && cleaned.all Char.isDigit

/-- Accumulator of `_regex_detection`: the surviving labels in append
order and the per-label match counts (`match_counts`). -/
structure DetectState where
  labels : List String
  counts : List (String × Nat)
  deriving DecidableEq, Repr

def countsGet (cs : List (String × Nat)) (k : String) : Nat :=
  (cs.lookup k).getD 0

def countsSet (cs : List (String × Nat)) (k : String) (n : Nat) :
    List (String × Nat) :=
  match cs with
  | [] => [(k, n)]
  | (k2, n2) :: rest => if k2 = k then (k, n) :: rest else (k2, n2) :: countsSet rest k n

/-- Inner loop body of `_regex_detection` for one pattern of one label:
skip if there are no matches; for `PAN`, skip the pattern (a `continue`,
scoped to this pattern, not the label) unless every all-digit match
passes Luhn; otherwise bump the label count and record the label. -/
def processPattern (content : String) (label : String) (st : DetectState)
    (r : Re) : DetectState :=
  let ms := findall r content
  if ms.isEmpty then st
  else if label == "PAN" &&
      !(ms.all (fun m => !isDigitsNoDash m || validateLuhn m)) then st
  else
    { labels := if st.labels.contains label then st.labels else st.labels ++ [label],
      counts := countsSet st.counts label (countsGet st.counts label + ms.length) }

/-- The label/count state after the full pattern loop of
`_regex_detection`. -/
def detectionState (content : String) : DetectState :=
  regexPatterns.foldl (fun st lp => lp.2.foldl (processPattern content lp.1) st) ⟨[], []⟩

/-- `_regex_detection`: run every pattern of every label, then score
`min(0.9 * (max_count / 5), 0.95)` off the highest per-label count, or
`(0.0, [])` when no label survived. -/
def regexDetection (content : String) : ℚ × List String :=
  let st := detectionState content
  if st.labels.isEmpty then (0, [])
  else
    let maxCount := (st.counts.map Prod.snd).foldl max 0
    (min ((9 : ℚ) / 10 * ((maxCount : ℚ) / 5)) ((95 : ℚ) / 100), st.labels)

/-- First-occurrence order of the distinct characters of a list: the
iteration order of the `freq` dict built by `_calculate_entropy`. -/
def firstOccurrences : List Char → List Char
  | [] => []
  | c :: rest => c :: (firstOccurrences rest).filter (fun x => x ≠ c)

/-- One term of the entropy sum: `p * log2(p)` for the probability of
character `c` in `chars`. -/
def entropyTerm (log2 : ℚ → ℚ) (chars : List Char) (c : Char) : ℚ :=
  let p := ((chars.count c : ℕ) : ℚ) / (chars.length : ℚ)
  p * log2 p

/-- `_calculate_entropy` with `math.log2` as the abstract `log2`
parameter: empty content gives `0.0`, otherwise
`entropy -= p * log2(p)` over the character-frequency dict (iterated in
first-occurrence order, though exact rational arithmetic makes the
accumulation order immaterial). -/
def calculateEntropy (log2 : ℚ → ℚ) (content : String) : ℚ :=
  if content = "" then 0
  else
    (firstOccurrences content.data).foldl
      (fun acc c => acc - entropyTerm log2 content.data c) 0

/-- `_calculate_confidence`: zero without scores; otherwise the average
score, boosted by the method count (capped at 3) and diluted by the
number of distinct labels. -/
def calculateConfidence (scores : List ℚ) (labels : List String) : ℚ :=
  if scores.isEmpty then 0
  else
    let avgScore := scores.sum / (scores.length : ℚ)
    let labelConsistency : ℚ := 1 / (1 + (labels.dedup.length : ℚ) * (1 / 10))
    min (avgScore * ((7 : ℚ) / 10 + (15 : ℚ) / 100 * ((min scores.length 3 : ℕ) : ℚ) / 3)
          * labelConsistency) 1

/-- `_ml_inference` is a placeholder returning `(0.0, '')` whatever the
content. -/
def mlInference (_content : String) : ℚ × String := (0, "")

/-- `DLPClassifier` state: the fingerprint set (SHA-256 hex digests),
the optional ML model slot (`None` after `__init__`; `_ml_inference`
never consults it), and the two external primitives — `hashlib.sha256`
hex digest and `math.log2` — as abstract functions. -/
structure DLPClassifier where
  fingerprints : List String
  ml_model : Option Unit
  sha256 : String → String
  log2 : ℚ → ℚ

/-- The classification result dict. `labels` is `list(set(labels))` and
`methods` is `','.join(set(methods))` in Python; both are modelled as
first-kept deduplication, and only membership and emptiness of these
fields are relied upon, since a Python `set` iterates in unspecified
order. -/
structure ClassifyResult where
  score : ℚ
  labels : List String
  methods : String
  confidence : ℚ
  entropy : ℚ
  deriving DecidableEq, Repr

/-- `classify`: the four signal sources in code order — fingerprint
(score 1.0), regex patterns (when the score is positive), entropy above
3.5 (score 0.7), and the ML placeholder (never contributes, since
`_ml_inference` returns 0.0) — then the min/max aggregation and the
confidence formula. -/
def classify (c : DLPClassifier) (content : String) : ClassifyResult :=
  let contentHash := c.sha256 content
  let fp := c.fingerprints.contains contentHash
  let rd := regexDetection content
  let entropy := calculateEntropy c.log2 content
  let mlContributes :=
    c.ml_model.isSome && decide ((3 : ℚ) / 4 < (mlInference content).1)
  let scores : List ℚ :=
    (if fp then [1] else []) ++
    (if 0 < rd.1 then [rd.1] else []) ++
    (if (7 : ℚ) / 2 < entropy then [(7 : ℚ) / 10] else []) ++
    (if mlContributes then [(mlInference content).1 * ((8 : ℚ) / 10)] else [])
  let labels : List String :=
    (if fp then ["KNOWN_SENSITIVE_DOC"] else []) ++
    (if 0 < rd.1 then rd.2 else []) ++
    (if (7 : ℚ) / 2 < entropy then ["HIGH_ENTROPY"] else []) ++
    (if mlContributes then [(mlInference content).2] else [])
  let methods : List String :=
    (if fp then ["fingerprint"] else []) ++
    (if 0 < rd.1 then ["regex"] else []) ++
    (if (7 : ℚ) / 2 < entropy then ["entropy"] else []) ++
    (if mlContributes then ["ml"] else [])
  let finalScore :=
    match scores with
    | [] => (0 : ℚ)
    | s :: rest => min (rest.foldl max s) 1
  { score := finalScore,
    labels := labels.dedup,
    methods := String.intercalate "," methods.dedup,
    confidence := calculateConfidence scores labels,
    entropy := entropy }

/-! ## Spec-worded comparison definition -/

/-- Modelled from the spec: the stateful check as worded by the
specification and claim C2, which prunes exactly the entries with
`timestamp < now - window` (strict), so an entry sitting exactly at
`now - window` is kept. Identical to `evaluateStateful` except for that
one filter, and stated only for comparison with the code, whose filter
keeps `timestamp > now - window`. -/
def evaluateStatefulSpecPrune (now : ℤ) (event : PyVal) (policy : Policy)
    (tracker : Tracker) : Bool × Tracker :=
  let stateful := policy.stateful.getD ⟨Option.none, 1, Option.none⟩
  let windowSeconds : Int := parseDuration (stateful.window.getD "5m")
  let countThreshold : Int := stateful.count
  let pid := policy.id
  let appended := trackerGet tracker pid ++ [⟨now, event⟩]
  let cutoff : ℤ := now - windowSeconds
  let eventsInWindow := appended.filter (fun item => cutoff ≤ item.timestamp)
  let count : Nat :=
    match stateful.distinct_field with
    | some df => distinctCount (eventsInWindow.map (fun item => getNestedValue item.event df))
    | Option.none => eventsInWindow.length
  (decide (countThreshold ≤ (count : Int)), trackerSet tracker pid eventsInWindow)

/-! ## Concrete fixtures for the claim theorems -/

/-- A `re.search` stand-in for fixtures whose conditions never reach the
`regex` operator. -/
def noSearch : PyVal → PyVal → Except Unit Bool := fun _ _ => .error ()

def fixEvent : PyVal := .dict [("x", .int 1)]

/-- An enabled stateless policy matching `fixEvent`, with the given id
and priority. -/
def fixPolicy (i : String) (pr : Int) : Policy :=
  ⟨some i, some i, true, some pr, .leaf ⟨"x", "==", .int 1⟩, Option.none, [], []⟩

/-- Three policies loaded one by one with priorities 10, 100, 50. -/
def fixEvaluator : Evaluator :=
  loadPolicy (loadPolicy (loadPolicy ⟨[], []⟩ (fixPolicy "a" 10)) (fixPolicy "b" 100))
    (fixPolicy "c" 50)

/-- Policy with a 5-minute window and a plain count threshold of 3. -/
def fixStatefulPolicy : Policy :=
  ⟨some "P", some "burst", true, some 100, .leaf ⟨"x", "exists", .none⟩,
   some ⟨some "5m", 3, Option.none⟩, [], []⟩

/-- Policy with a 5-minute window and a threshold of 3 distinct
`user_id` values. -/
def fixDistinctPolicy : Policy :=
  ⟨some "P", some "distinct", true, some 100, .leaf ⟨"x", "exists", .none⟩,
   some ⟨some "5m", 3, some "user_id"⟩, [], []⟩

/-- Policy with a 5-minute window and a plain count threshold of 2, for
the window-boundary comparison. -/
def fixBoundaryPolicy : Policy :=
  ⟨some "P", some "boundary", true, some 100, .leaf ⟨"x", "exists", .none⟩,
   some ⟨some "5m", 2, Option.none⟩, [], []⟩

def userEvent (u : String) : PyVal := .dict [("user_id", .str u)]

/-- Threshold scenario: checks at 0 s, 120 s and 240 s (all within four
minutes). -/
def burstCheck1 : Bool × Tracker := evaluateStateful 0 (userEvent "u1") fixStatefulPolicy []
def burstCheck2 : Bool × Tracker :=
  evaluateStateful 120 (userEvent "u1") fixStatefulPolicy burstCheck1.2
def burstCheck3 : Bool × Tracker :=
  evaluateStateful 240 (userEvent "u1") fixStatefulPolicy burstCheck2.2

/-- Third check six minutes after the first (360 s), so the first entry
is pruned. -/
def lateCheck3 : Bool × Tracker :=
  evaluateStateful 360 (userEvent "u1") fixStatefulPolicy burstCheck2.2

/-- Distinct-field scenario: users u1, u2, u1, then a third distinct
user u3, well inside the window. -/
def distinctCheck1 : Bool × Tracker := evaluateStateful 0 (userEvent "u1") fixDistinctPolicy []
def distinctCheck2 : Bool × Tracker :=
  evaluateStateful 60 (userEvent "u2") fixDistinctPolicy distinctCheck1.2
def distinctCheck3 : Bool × Tracker :=
  evaluateStateful 120 (userEvent "u1") fixDistinctPolicy distinctCheck2.2
def distinctCheck4 : Bool × Tracker :=
  evaluateStateful 180 (userEvent "u3") fixDistinctPolicy distinctCheck3.2

/-- A server policy file dict with the given id, priority and condition
operator; structurally valid whatever the operator. -/
def serverPolicyFile (i : String) (pr : Int) (op : String) : PyVal :=
  .dict [("policy", .dict
    [("id", .str i), ("name", .str i), ("priority", .int pr),
     ("rules", .list [.dict [("id", .str "r1"),
       ("conditions", .list [.dict [("field", .str "x"), ("operator", .str op),
                                    ("value", .int 1)]]),
       ("actions", .list [])]])])]

/-- A policy file missing the required `policy.name` field. -/
def malformedPolicyFile : PyVal :=
  .dict [("policy", .dict [("id", .str "bad"),
    ("rules", .list [.dict [("id", .str "r1"), ("conditions", .list []),
                            ("actions", .list [])]])])]

/-- Server load input with priorities 10, 100, 50. -/
def serverLoadFixture : List (Except Unit PyVal) :=
  [.ok (serverPolicyFile "a" 10 "equals"), .ok (serverPolicyFile "b" 100 "equals"),
   .ok (serverPolicyFile "c" 50 "equals")]

/-- Server load input mixing a valid policy, a malformed one, a raising
file and a policy whose only flaw is an unknown condition operator. -/
def serverLoadMixedFixture : List (Except Unit PyVal) :=
  [.ok (serverPolicyFile "good" 10 "equals"), .ok malformedPolicyFile, .error (),
   .ok (serverPolicyFile "badop" 20 "bogus")]

/-- One PAN pattern contributes its matches iff it has any and every
all-digit match among them passes Luhn (the `continue` guard of
`_regex_detection`, negated). -/
def panPatternOk (content : String) (r : Re) : Bool :=
  !(findall r content).isEmpty &&
    (findall r content).all (fun m => !isDigitsNoDash m || validateLuhn m)

/-- All candidate PAN matches of a content: the union of the four PAN
pattern match lists. -/
def panCandidateMatches (content : String) : List String :=
  panPatterns.flatMap (fun r => findall r content)

/-- Content holding a Luhn-valid Visa number and a Luhn-invalid
Mastercard number. -/
def mixedPanContent : String := "4532015112830366 5105105105105106"

/-! ## Helper lemmas -/

/-- Dict update leaves every other key unchanged. -/
theorem lookup_trackerSet_ne (t : Tracker) (pid k : Option String)
    (l : List Entry) (h : k ≠ pid) :
    (trackerSet t pid l).lookup k = t.lookup k := by
  induction t with
  | nil =>
    simp [trackerSet, List.lookup, beq_eq_false_iff_ne.mpr h]
  | cons hd tl ih =>
    by_cases hk : hd.1 = pid
    · simp only [trackerSet, hk, if_pos rfl]
      simp [List.lookup, beq_eq_false_iff_ne.mpr h, hk]
    · simp only [trackerSet, if_neg hk]
      by_cases hk2 : k = hd.1
      · simp [List.lookup, hk2]
      · simp [List.lookup, beq_eq_false_iff_ne.mpr hk2, ih]

/-- The descending-priority order used by `load_policy` is total. -/
theorem policyDescTotal : IsTotal Policy
    (fun a b => b.priority.getD 100 ≤ a.priority.getD 100) :=
  ⟨fun _ _ => le_total _ _⟩

/-- The descending-priority order used by `load_policy` is transitive. -/
theorem policyDescTrans : IsTrans Policy
    (fun a b => b.priority.getD 100 ≤ a.priority.getD 100) :=
  ⟨fun _ _ _ h1 h2 => le_trans h2 h1⟩

/-! ## Claim theorems -/

/-- C1 (counterexample): the claim asserts the loaded policy list is
priority-descending with `evaluate()` reporting `[100, 50, 10]` for
priorities `[10, 100, 50]`; the server `PolicyEngine.load_policies`
sorts without `reverse=True`, so its loaded list comes out ascending,
`[10, 50, 100]`. -/
theorem C1_server_sort_counterexample :
    (serverLoadPolicies serverLoadFixture).map serverPriorityKey = [10, 50, 100]
    ∧ ([10, 50, 100] : List Int) ≠ [100, 50, 10] := by
  constructor
  · rfl
  · decide

/-- C1 (amended): `PolicyEvaluator.load_policy` re-sorts the whole list
priority-descending on every call, and its `evaluate_event` reports
matches in that order — `[100, 50, 10]` for loaded priorities
`[10, 100, 50]`; the server `PolicyEngine.load_policies`, by contrast,
sorts ascending, yielding `[10, 50, 100]`. -/
theorem C1_priority_order_amended :
    (∀ (ev : Evaluator) (p : Policy),
        List.Sorted (fun a b : Policy => b.priority.getD 100 ≤ a.priority.getD 100)
          (loadPolicy ev p).policies)
    ∧ fixEvaluator.policies.map (fun p => p.priority.getD 100) = [100, 50, 10]
    ∧ (evaluateEvent noSearch 0 fixEvaluator fixEvent).1.map MatchInfo.priority
        = [100, 50, 10]
    ∧ (serverLoadPolicies serverLoadFixture).map serverPriorityKey = [10, 50, 100] := by
  refine ⟨fun ev p => ?_, by decide, by decide, rfl⟩
  haveI := policyDescTotal
  haveI := policyDescTrans
  exact List.sorted_insertionSort _ _

/-- C2 (counterexample): the claim words the pruning as dropping exactly
the entries with `timestamp < now - window`, under which an entry at
exactly `now - window` survives; the code keeps only
`timestamp > cutoff`, dropping it. With a 5-minute window, a count
threshold of 2 and checks at 0 s and 300 s, the code reports no match
on the second check while the claim wording would report one. -/
theorem C2_boundary_counterexample :
    (evaluateStateful 300 (userEvent "u1") fixBoundaryPolicy
        (evaluateStateful 0 (userEvent "u1") fixBoundaryPolicy []).2).1 = false
    ∧ (evaluateStatefulSpecPrune 300 (userEvent "u1") fixBoundaryPolicy
        (evaluateStatefulSpecPrune 0 (userEvent "u1") fixBoundaryPolicy []).2).1 = true := by
  decide

/-- C2 (amended): each stateful check appends `(now, event)` to the
policy window, prunes the entries with `timestamp ≤ now - window`
(keeping only those strictly newer than the cutoff), then compares the
count — or the distinct resolved `distinct_field` count — with the
threshold: with a 5-minute window and count 3, checks at 0 s, 120 s and
240 s match on the third; a third check at 360 s (six minutes after the
first, which is pruned) does not match; with `distinct_field = user_id`
and count 3, three events from users u1, u2, u1 do not match and a
fourth from u3 does. -/
theorem C2_stateful_window_amended :
    burstCheck1.1 = false ∧ burstCheck2.1 = false ∧ burstCheck3.1 = true
    ∧ lateCheck3.1 = false
    ∧ distinctCheck3.1 = false ∧ distinctCheck4.1 = true := by
  decide

/-- C7: for every event, an `all` conditions dict with an empty children
list evaluates to `True` and an empty `any` evaluates to `False`. -/
theorem C7_empty_all_any :
    ∀ (reSearch : PyVal → PyVal → Except Unit Bool) (event : PyVal),
      evaluateConditions reSearch event (.all []) = true
      ∧ evaluateConditions reSearch event (.any []) = false :=
  fun _ _ => ⟨rfl, rfl⟩

/-- C10: a stateful check rewrites only the tracker entry of the checked
policy id — every other id keeps its window list — and `evaluate_event`
leaves the loaded policy list untouched. -/
theorem C10_stateful_frame :
    (∀ (now : ℤ) (event : PyVal) (policy : Policy) (tracker : Tracker)
        (k : Option String), k ≠ policy.id →
        ((evaluateStateful now event policy tracker).2).lookup k = tracker.lookup k)
    ∧ (∀ (reSearch : PyVal → PyVal → Except Unit Bool) (now : ℤ)
        (ev : Evaluator) (event : PyVal),
        ((evaluateEvent reSearch now ev event).2).policies = ev.policies) :=
  ⟨fun _ _ _ tracker k h => lookup_trackerSet_ne tracker _ k _ h,
   fun _ _ _ _ => rfl⟩

/-- C10 (witness): the frame property at a concrete check — policy id
`P`, other key `other`, empty tracker. -/
theorem C10_stateful_frame_witness :
    some "other" ≠ fixStatefulPolicy.id
    ∧ ((evaluateStateful 0 (userEvent "u1") fixStatefulPolicy []).2).lookup
        (some "other") = ([] : Tracker).lookup (some "other") :=
  ⟨by decide, C10_stateful_frame.1 0 (userEvent "u1") fixStatefulPolicy []
      (some "other") (by decide)⟩

/-- C4: in `PolicyEvaluator._evaluate_condition`, an operator outside
the dispatch dict yields `False` for every event and condition; any
operator lambda that raises (the `try/except`) also yields `False`, in
particular `>` between a string field value and an integer literal; and
in the server `_evaluate_condition`, an unknown operator string yields
`False` as well. Both embeddings are total functions, so one bad
condition cannot abort the rest of a tree or other policies. -/
theorem C4_condition_error_handling :
    (∀ (reSearch : PyVal → PyVal → Except Unit Bool) (event : PyVal) (cond : Cond),
        cond.operator ∉ knownOperators → evaluateCondition reSearch event cond = false)
    ∧ (∀ (reSearch : PyVal → PyVal → Except Unit Bool) (event : PyVal) (cond : Cond),
        applyOperator reSearch cond.operator (getNestedValue event cond.field) cond.value
          = .error () →
        evaluateCondition reSearch event cond = false)
    ∧ (∀ (reSearch : PyVal → PyVal → Except Unit Bool) (event : PyVal) (cond : Cond)
        (s : String) (n : Int),
        cond.operator = ">" → getNestedValue event cond.field = .str s →
        cond.value = .int n → evaluateCondition reSearch event cond = false)
    ∧ (∀ (compileSearch : PyVal → String → Except Unit Bool) (event : PyVal)
        (f op : String) (v : PyVal), op ∉ serverKnownOperators →
        serverEvaluateCondition compileSearch event ⟨.str f, .str op, v⟩ = .ok false) := by
  have herr : ∀ (reSearch : PyVal → PyVal → Except Unit Bool) (event : PyVal) (cond : Cond),
      applyOperator reSearch cond.operator (getNestedValue event cond.field) cond.value
        = .error () →
      evaluateCondition reSearch event cond = false := by
    intro reSearch event cond h
    unfold evaluateCondition
    split
    · simp [h]
    · rfl
  refine ⟨?_, herr, ?_, ?_⟩
  · intro reSearch event cond h
    simp [evaluateCondition, h]
  · intro reSearch event cond s n hop hev hval
    refine herr reSearch event cond ?_
    rw [hop, hev, hval]
    simp only [applyOperator, pyCmp, pyToNum]
    rfl
  · intro compileSearch event f op v h
    simp only [serverKnownOperators, List.mem_cons, List.not_mem_nil, or_false,
      not_or] at h
    obtain ⟨h1, h2, h3, h4, h5, h6, h7, h8, h9, h10, h11, h12⟩ := h
    by_cases hb : (!pyTruthy (PyVal.str f) || !pyTruthy (PyVal.str op)) = true
    · simp [serverEvaluateCondition, hb]
    · have hb2 : (!pyTruthy (PyVal.str f) || !pyTruthy (PyVal.str op)) = false := by
        simpa using hb
      show serverEvaluateCondition compileSearch event ⟨.str f, .str op, v⟩ = .ok false
      unfold serverEvaluateCondition
      rw [hb2]
      simp only [Bool.false_eq_true, if_false]
      rw [if_neg h1, if_neg h2, if_neg h3, if_neg h4, if_neg h5, if_neg h6,
        if_neg h7, if_neg h8, if_neg h9, if_neg h10, if_neg h11, if_neg h12]

/-- C4 (witness): concrete instances — the unknown operator
`frobnicate`, the raising comparison of a string field with `> 5`, and
the server unknown operator `bogus`. -/
theorem C4_condition_error_handling_witness :
    ("frobnicate" ∉ knownOperators
      ∧ evaluateCondition (fun _ _ => .ok false) fixEvent ⟨"x", "frobnicate", .int 1⟩
          = false)
    ∧ (applyOperator (fun _ _ => .ok false) ">"
          (getNestedValue (.dict [("x", .str "abc")]) "x") (.int 5) = .error ()
      ∧ evaluateCondition (fun _ _ => .ok false) (.dict [("x", .str "abc")])
          ⟨"x", ">", .int 5⟩ = false)
    ∧ ("bogus" ∉ serverKnownOperators
      ∧ serverEvaluateCondition (fun _ _ => .ok false) fixEvent
          ⟨.str "x", .str "bogus", .int 1⟩ = .ok false) :=
  ⟨⟨by decide,
    C4_condition_error_handling.1 (fun _ _ => .ok false) fixEvent
      ⟨"x", "frobnicate", .int 1⟩ (by decide)⟩,
   ⟨rfl,
    C4_condition_error_handling.2.2.1 (fun _ _ => .ok false) (.dict [("x", .str "abc")])
      ⟨"x", ">", .int 5⟩ "abc" 5 rfl rfl rfl⟩,
   ⟨by decide,
    C4_condition_error_handling.2.2.2 (fun _ _ => .ok false) fixEvent "x" "bogus"
      (.int 1) (by decide)⟩⟩

/-- C5 (counterexample): a policy whose only flaw is the invalid
condition operator `bogus` passes `_validate_policy` and is loaded —
refuting the claim that such policies are rejected at load time. -/
theorem C5_invalid_operator_counterexample :
    serverValidatePolicy (serverPolicyFile "badop" 20 "bogus") = .ok true
    ∧ serverLoadPolicies [.ok (serverPolicyFile "badop" 20 "bogus")]
        = [serverPolicyFile "badop" 20 "bogus"] := by
  constructor
  · rfl
  · rfl

/-- C5 (amended): server `load_policies` rejects and logs policies
failing structural validation (missing required fields) and skips files
whose read or parse raises, continuing with the remaining files, and
never aborts; but a policy with an invalid condition operator or regex
pattern passes validation and is loaded (its patterns merely fail to
pre-compile, and unknown operators later evaluate to `False`); the
evaluator-side `load_policy`, by contrast, re-raises a parse failure to
its caller. -/
theorem C5_partial_load_amended :
    serverLoadPolicies serverLoadMixedFixture
        = [serverPolicyFile "good" 10 "equals", serverPolicyFile "badop" 20 "bogus"]
    ∧ (∀ files : List (Except Unit PyVal),
        serverLoadPolicies (files ++ [.error ()]) = serverLoadPolicies files)
    ∧ (∀ ev : Evaluator, loadPolicyResult ev (.error ()) = .error ()) := by
  refine ⟨rfl, fun files => ?_, fun ev => rfl⟩
  simp [serverLoadPolicies, List.foldl_append]

/-- C6 (counterexample): `_get_nested_value` returns Python `None` both
for a missing key and for a key explicitly set to `None`, so the
"absent" result is not represented distinctly from `null`; consequently
`exists` returns `False` on a field that is present but `null`. -/
theorem C6_null_vs_absent_counterexample :
    getNestedValue (.dict [("a", PyVal.none)]) "a" = getNestedValue (.dict []) "a"
    ∧ evaluateCondition noSearch (.dict [("a", PyVal.none)])
        ⟨"a", "exists", PyVal.none⟩ = false := by
  constructor
  · rfl
  · rfl

/-- C6 (amended): dot-path resolution yields `None` when any
intermediate key is missing, and this `None` coincides with an
explicitly stored `null` (they are not distinct) while remaining
distinct from the empty string; `exists` returns `True` iff the
resolved value is not `None`, so a present-but-`null` field counts as
absent. -/
theorem C6_absent_semantics_amended :
    (∀ (reSearch : PyVal → PyVal → Except Unit Bool) (event : PyVal) (c : Cond),
        c.operator = "exists" →
        (evaluateCondition reSearch event c = true ↔
          getNestedValue event c.field ≠ PyVal.none))
    ∧ getNestedValue (.dict [("a", PyVal.none)]) "a" = PyVal.none
    ∧ evaluateCondition noSearch (.dict [("a", .str "")])
        ⟨"a", "exists", PyVal.none⟩ = true := by
  refine ⟨?_, rfl, rfl⟩
  intro reSearch event c hop
  obtain ⟨f, op, v⟩ := c
  simp only at hop
  subst hop
  simp [evaluateCondition, applyOperator, knownOperators, bne_iff_ne]

/-- C6 (witness): the `exists` characterization at a concrete event and
condition. -/
theorem C6_absent_semantics_witness :
    (Cond.mk "a" "exists" PyVal.none).operator = "exists"
    ∧ (evaluateCondition noSearch (.dict [("a", .int 1)]) ⟨"a", "exists", PyVal.none⟩
          = true
        ↔ getNestedValue (.dict [("a", .int 1)]) "a" ≠ PyVal.none) :=
  ⟨rfl, C6_absent_semantics_amended.1 noSearch (.dict [("a", .int 1)])
    ⟨"a", "exists", PyVal.none⟩ rfl⟩

/-- A pattern run under a label other than `l2` cannot change whether
`l2` is among the collected labels. -/
theorem mem_labels_processPattern_ne (content label l2 : String) (st : DetectState)
    (r : Re) (h : label ≠ l2) :
    (l2 ∈ (processPattern content label st r).labels ↔ l2 ∈ st.labels) := by
  simp only [processPattern]
  split
  · exact Iff.rfl
  · split
    · exact Iff.rfl
    · simp only []
      split
      · exact Iff.rfl
      · simp [Ne.symm h]

/-- A PAN pattern adds the `PAN` label exactly when it has matches and
every all-digit match passes Luhn. -/
theorem mem_labels_processPattern_pan (content : String) (st : DetectState) (r : Re) :
    ("PAN" ∈ (processPattern content "PAN" st r).labels ↔
      "PAN" ∈ st.labels ∨ panPatternOk content r = true) := by
  simp only [processPattern, panPatternOk]
  split
  · rename_i hemp
    simp [hemp]
  · rename_i hemp
    have hemp2 : (findall r content).isEmpty = false := by
      simpa using hemp
    split
    · rename_i hfail
      have hfail2 : (findall r content).all
          (fun m => !isDigitsNoDash m || validateLuhn m) = false := by
        simpa using hfail
      simp [hemp2, hfail2]
    · rename_i hok
      have hok3 : ∀ x ∈ findall r content,
          isDigitsNoDash x = true → validateLuhn x = true := by
        simpa using hok
      have hok2 : (findall r content).all
          (fun m => !isDigitsNoDash m || validateLuhn m) = true := by
        rw [List.all_eq_true]
        intro m hm
        rcases Bool.eq_false_or_eq_true (isDigitsNoDash m) with hd | hd
        · simp [hd, hok3 m hm hd]
        · simp [hd]
      simp only []
      split
      · rename_i hcont
        have hmem : "PAN" ∈ st.labels := by
          simpa using hcont
        simp [hmem, hemp2, hok2]
      · simp [hemp2, hok2]

/-- The per-label pattern fold for a label other than `l2` preserves
`l2` membership. -/
theorem mem_labels_foldl_ne (content label l2 : String) (h : label ≠ l2) :
    ∀ (rs : List Re) (st : DetectState),
      (l2 ∈ (rs.foldl (processPattern content label) st).labels ↔ l2 ∈ st.labels)
  | [], _ => Iff.rfl
  | r :: rs, st => by
    rw [List.foldl_cons]
    rw [mem_labels_foldl_ne content label l2 h rs _]
    exact mem_labels_processPattern_ne content label l2 st r h

/-- Over the PAN pattern fold, the `PAN` label is collected exactly when
some pattern contributes. -/
theorem mem_labels_foldl_pan (content : String) :
    ∀ (rs : List Re) (st : DetectState),
      ("PAN" ∈ (rs.foldl (processPattern content "PAN") st).labels ↔
        "PAN" ∈ st.labels ∨ rs.any (panPatternOk content) = true)
  | [], _ => by simp
  | r :: rs, st => by
    rw [List.foldl_cons]
    rw [mem_labels_foldl_pan content rs _]
    rw [mem_labels_processPattern_pan]
    simp [or_assoc]

/-- The `PAN` label survives the whole detection loop iff some PAN
pattern has matches all of whose all-digit matches are Luhn-valid. -/
theorem pan_mem_detectionState (content : String) :
    ("PAN" ∈ (detectionState content).labels ↔
      panPatterns.any (panPatternOk content) = true) := by
  unfold detectionState
  simp only [regexPatterns, List.foldl_cons, List.foldl_nil]
  rw [mem_labels_processPattern_ne content "IP_ADDRESS" "PAN" _ _ (by decide),
      mem_labels_processPattern_ne content "SECRET" "PAN" _ _ (by decide),
      mem_labels_processPattern_ne content "SECRET" "PAN" _ _ (by decide),
      mem_labels_processPattern_ne content "API_KEY" "PAN" _ _ (by decide),
      mem_labels_processPattern_ne content "API_KEY" "PAN" _ _ (by decide),
      mem_labels_processPattern_ne content "PHONE" "PAN" _ _ (by decide),
      mem_labels_processPattern_ne content "PHONE" "PAN" _ _ (by decide),
      mem_labels_processPattern_ne content "EMAIL" "PAN" _ _ (by decide),
      mem_labels_processPattern_ne content "SSN" "PAN" _ _ (by decide),
      mem_labels_processPattern_ne content "SSN" "PAN" _ _ (by decide),
      mem_labels_foldl_pan content panPatterns ⟨[], []⟩]
  simp

/-- The same characterization through `_regex_detection`, whose label
list is the collected one (or empty when nothing survived). -/
theorem pan_mem_regexDetection (content : String) :
    ("PAN" ∈ (regexDetection content).2 ↔
      panPatterns.any (panPatternOk content) = true) := by
  have hkey := pan_mem_detectionState content
  simp only [regexDetection]
  by_cases hemp : (detectionState content).labels.isEmpty = true
  · have hnil : (detectionState content).labels = [] := by
      simpa [List.isEmpty_iff] using hemp
    rw [hnil] at hkey
    rw [if_pos hemp]
    constructor
    · intro hmem
      exact absurd hmem (by simp)
    · intro hany
      exact absurd (hkey.mpr hany) (by simp)
  · rw [if_neg hemp]
    exact hkey

/-- C3 (counterexample): the Luhn guard in `_regex_detection` is a
per-pattern `continue`, not a per-label discard: in a content holding a
Luhn-valid Visa number and a Luhn-invalid Mastercard number, the
invalid number is an all-digit candidate PAN match, yet the `PAN` label
still fires (from the Visa pattern) — refuting "the PAN label is kept
only when every all-digit candidate PAN match passes Luhn". -/
theorem C3_per_label_counterexample :
    "PAN" ∈ (regexDetection mixedPanContent).2
    ∧ "5105105105105106" ∈ panCandidateMatches mixedPanContent
    ∧ isDigitsNoDash "5105105105105106" = true
    ∧ validateLuhn "5105105105105106" = false := by
  refine ⟨by decide, by decide, rfl, rfl⟩

/-- C3 (amended): the Luhn filter applies per PAN pattern — a pattern
with matches contributes (and keeps the label) iff every all-digit
match of that pattern passes Luhn, and the `PAN` label fires iff some
PAN pattern so contributes; in particular, for a single candidate
number, detection fires on the Luhn-valid `4532015112830366` and not on
the Luhn-invalid `4532015112830367` (the Luhn check itself validating
the former and rejecting the latter). -/
theorem C3_pan_luhn_amended :
    (∀ content : String, ("PAN" ∈ (regexDetection content).2 ↔
        panPatterns.any (panPatternOk content) = true))
    ∧ validateLuhn "4532015112830366" = true
    ∧ validateLuhn "4532015112830367" = false
    ∧ "PAN" ∈ (regexDetection "4532015112830366").2
    ∧ "PAN" ∉ (regexDetection "4532015112830367").2 :=
  ⟨pan_mem_regexDetection, rfl, rfl, by decide, by decide⟩

/-- Subtracting a list of terms from an accumulator is subtracting
their sum. -/
theorem foldl_sub_eq (f : Char → ℚ) : ∀ (l : List Char) (a : ℚ),
    l.foldl (fun acc c => acc - f c) a = a - (l.map f).sum
  | [], a => by simp
  | c :: l, a => by
    rw [List.foldl_cons, foldl_sub_eq f l (a - f c)]
    simp only [List.map_cons, List.sum_cons]
    ring

/-- Membership in the first-occurrence list is membership in the list. -/
theorem mem_firstOccurrences (a : Char) : ∀ (l : List Char),
    (a ∈ firstOccurrences l ↔ a ∈ l)
  | [] => Iff.rfl
  | c :: l => by
    simp only [firstOccurrences, List.mem_cons, List.mem_filter]
    by_cases hac : a = c
    · simp [hac]
    · simp [hac, mem_firstOccurrences a l]

/-- The first-occurrence list has no duplicates. -/
theorem nodup_firstOccurrences : ∀ (l : List Char), (firstOccurrences l).Nodup
  | [] => List.nodup_nil
  | c :: l => by
    simp only [firstOccurrences]
    refine List.Nodup.cons ?_ (List.Nodup.filter _ (nodup_firstOccurrences l))
    simp [List.mem_filter]

/-- Permuted lists have permuted first-occurrence lists. -/
theorem firstOccurrences_perm {l1 l2 : List Char} (h : l1.Perm l2) :
    (firstOccurrences l1).Perm (firstOccurrences l2) := by
  rw [List.perm_ext_iff_of_nodup (nodup_firstOccurrences l1) (nodup_firstOccurrences l2)]
  intro a
  rw [mem_firstOccurrences, mem_firstOccurrences]
  exact h.mem_iff

/-- C9: the computed Shannon entropy only depends on the character
multiset — two strings whose character lists are permutations of each
other get the same entropy, whatever `math.log2` returns. -/
theorem C9_entropy_permutation :
    ∀ (log2 : ℚ → ℚ) (s t : String), s.data.Perm t.data →
      calculateEntropy log2 s = calculateEntropy log2 t := by
  intro log2 s t h
  by_cases hs : s = ""
  · subst hs
    have hnil : t.data = [] := h.symm.eq_nil
    have ht : t = "" := String.ext_iff.mpr (by simpa using hnil)
    rw [ht]
  · have ht : t ≠ "" := by
      intro he
      subst he
      exact hs (String.ext_iff.mpr (by simpa using h.eq_nil))
    unfold calculateEntropy
    rw [if_neg hs, if_neg ht]
    rw [foldl_sub_eq (entropyTerm log2 s.data) (firstOccurrences s.data) 0,
        foldl_sub_eq (entropyTerm log2 t.data) (firstOccurrences t.data) 0]
    have hterm : entropyTerm log2 s.data = entropyTerm log2 t.data := by
      funext c
      unfold entropyTerm
      rw [h.count_eq c, h.length_eq]
    rw [hterm, ((firstOccurrences_perm h).map (entropyTerm log2 t.data)).sum_eq]

/-- C9 (witness): the invariance at the concrete permuted pair `ab` /
`ba`. -/
theorem C9_entropy_permutation_witness :
    ("ab" : String).data.Perm ("ba" : String).data
    ∧ calculateEntropy (fun q => q) "ab" = calculateEntropy (fun q => q) "ba" :=
  ⟨by decide, C9_entropy_permutation (fun q => q) "ab" "ba" (by decide)⟩

/-- C8: classifying the empty string — whenever its hash is not among
the registered fingerprints, which holds in particular for the freshly
constructed classifier — returns score `0.0`, no labels, no methods,
confidence `0.0` and entropy `0.0`; the embedding is a total function,
so the call cannot raise. -/
theorem C8_classify_empty :
    ∀ (fps : List String) (mlm : Option Unit) (sha : String → String) (log2 : ℚ → ℚ),
      sha "" ∉ fps →
      classify ⟨fps, mlm, sha, log2⟩ "" =
        { score := 0, labels := [], methods := "", confidence := 0, entropy := 0 } := by
  intro fps mlm sha log2 h
  have hfp : fps.contains (sha "") = false := by
    simpa using h
  have hrd : regexDetection "" = (0, []) := by decide
  have hent : calculateEntropy log2 "" = 0 := rfl
  have hml : (mlm.isSome && decide ((3 : ℚ) / 4 < (mlInference "").1)) = false := by
    have : ¬((3 : ℚ) / 4 < (mlInference "").1) := by
      norm_num [mlInference]
    simp [this]
  simp only [classify, hfp, hrd, hent, hml]
  norm_num [calculateConfidence]
  rfl

/-- C8 (witness): the freshly constructed classifier (empty fingerprint
set, no ML model) on the empty string. -/
theorem C8_classify_empty_witness :
    (fun s : String => s) "" ∉ ([] : List String)
    ∧ classify ⟨[], Option.none, fun s => s, fun _ => 0⟩ "" =
        { score := 0, labels := [], methods := "", confidence := 0, entropy := 0 } :=
  ⟨by simp, C8_classify_empty [] Option.none (fun s => s) (fun _ => 0) (by simp)⟩

end CyberSentinel
